import Mathlib

/-!
Verification development for the libConCoCt grading library.

This file gives a shallow embedding of the core of the library
(`libConCoct/report.py`, `compiler.py`, `checker.py`, `unittest.py`,
`concoct.py`) and proves or refutes the testable properties of its
specification.  External effects (the filesystem, subprocesses, the
regular-expression engine, the XML library, the container runtime) are
modelled as explicit inputs: a function argument stands for the answer the
external system would give, and the embedded definitions reproduce the
control flow of the Python source on those answers.
-/

/- ===================== report.py : data model ===================== -/

/-- Result dictionary of a CUnit run: suite name to (test name to success),
the shape of `CunitParser.list_of_tests` (a `defaultdict(dict)`), with
Python dict insertion order made explicit as an association list. -/
abbrev TestsMap := List (String × List (String × Bool))

/-- Shallow embedding of `report.Message.__init__`: the four attributes
`type`, `file`, `line`, `desc`, in assignment order.  The compiler parser
can store Python `None` in `file`, `line` and `desc`, hence `Option`. -/
structure Message where
  type : String
  file : Option String
  line : Option String
  desc : Option String
deriving DecidableEq

/-- Shallow embedding of `report.ReportPart.__init__`: stage name, return
code, ordered messages, and the optional unit-test result map (`tests=None`
by default; the cunit stage passes a possibly empty dict). -/
structure ReportPart where
  source : String
  returncode : Int
  messages : List Message
  tests : Option TestsMap
deriving DecidableEq

/-- Shallow embedding of `report.Report`: the ordered list of parts grown
by `add_part`. -/
structure Report where
  parts : List ReportPart
deriving DecidableEq

/-- Decidable equality for `Except`, used to evaluate embedded fallible
operations on concrete inputs. -/
instance {ε α : Type} [DecidableEq ε] [DecidableEq α] : DecidableEq (Except ε α) := fun x y =>
  match x, y with
  | .ok a, .ok b =>
    match decEq a b with
    | isTrue h => isTrue (congrArg Except.ok h)
    | isFalse h => isFalse (fun hh => h (Except.ok.inj hh))
  | .error a, .error b =>
    match decEq a b with
    | isTrue h => isTrue (congrArg Except.error h)
    | isFalse h => isFalse (fun hh => h (Except.error.inj hh))
  | .ok _, .error _ => isFalse (fun hh => Except.noConfusion hh)
  | .error _, .ok _ => isFalse (fun hh => Except.noConfusion hh)

/- ===================== Python dict helpers ===================== -/

/-- Python dict assignment `d[k] = v` on an insertion-ordered association
list: an existing key keeps its position and gets the new value, a fresh key
is appended at the end. -/
def alistInsert {β : Type} (kvs : List (String × β)) (k : String) (v : β) :
    List (String × β) :=
  match kvs with
  | [] => [(k, v)]
  | (k0, v0) :: rest => if k0 = k then (k, v) :: rest else (k0, v0) :: alistInsert rest k v

/-- Python dict lookup `d[k]` on an insertion-ordered association list. -/
def alistFind {β : Type} (kvs : List (String × β)) (k : String) : Option β :=
  match kvs with
  | [] => none
  | (k0, v0) :: rest => if k0 = k then some v0 else alistFind rest k

/- ===================== report.py : JSON serialization ===================== -/

/-- JSON value tree, the output of `ReportJSONEncoder` before
`json.dumps` renders it; objects keep Python dict insertion order. -/
inductive Json where
  | null
  | bool (b : Bool)
  | num (n : Int)
  | str (s : String)
  | arr (items : List Json)
  | obj (entries : List (String × Json))

/-- Encoding of one Message attribute value: a Python string or `None`. -/
def encodeField : Option String → Json
  | none => .null
  | some s => .str s

/-- Branch of `ReportJSONEncoder.default` for `Message`: the reflection
over `obj.__dict__` yields the attributes in assignment order
(`type`, `file`, `line`, `desc`). -/
def encodeMessage (m : Message) : Json :=
  .obj [("type", .str m.type), ("file", encodeField m.file), ("line", encodeField m.line),
        ("desc", encodeField m.desc)]

/-- Rendering of the `tests` dict (`report_part_object['tests'] = obj.tests`)
as nested JSON objects. -/
def encodeTests (t : TestsMap) : Json :=
  .obj (t.map (fun st => (st.1, Json.obj (st.2.map (fun tb => (tb.1, Json.bool tb.2))))))

/-- Python truthiness of the `tests` attribute, as used by
`if obj.tests:` — `None` and the empty dict are falsy. -/
def testsTruthy : Option TestsMap → Bool
  | none => false
  | some [] => false
  | some (_ :: _) => true

/-- Branch of `ReportJSONEncoder.default` for `ReportPart`: `returncode`,
then `messages`, then `tests` only when truthy. -/
def encodeReportPart (p : ReportPart) : Json :=
  .obj ([("returncode", Json.num p.returncode),
         ("messages", Json.arr (p.messages.map encodeMessage))]
        ++ (if testsTruthy p.tests then [("tests", encodeTests (p.tests.getD []))] else []))

/-- Branch of `ReportJSONEncoder.default` for `Report`: a dict keyed by
`part.source`, filled by iterating the parts in order
(`report_object[report.source] = ...`), so a repeated stage name
overwrites the earlier entry. -/
def encodeReport (r : Report) : Json :=
  .obj (r.parts.foldl (fun acc p => alistInsert acc p.source (encodeReportPart p)) [])

/-- Logical content of one ReportPart, the data the wire schema carries:
return code, ordered messages, optional test map. -/
structure PartContent where
  returncode : Int
  messages : List Message
  tests : Option TestsMap
deriving DecidableEq

/-- Logical content of a Report: the stage-keyed sequence of part
contents, in part order. -/
def logicalOf (r : Report) : List (String × PartContent) :=
  r.parts.map (fun p => (p.source, ⟨p.returncode, p.messages, p.tests⟩))

/-- Modelled from the spec: the source has no JSON decoder
(`# TODO Write JSONDecoder.` in report.py); this decoder follows the wire
schema of the spec, section 6: an object keyed by stage name mapping to
`returncode`, `messages` (objects with the four Message fields, strings or
null), and an optional `tests` object of objects of booleans.
Here the string case of one scalar field. -/
def decodeString : Json → Option String
  | .str s => some s
  | _ => none

/-- Modelled from the spec: decoder for one Message attribute value
(string or null), inverse of `encodeField`. -/
def decodeField : Json → Option (Option String)
  | .null => some none
  | .str s => some (some s)
  | _ => none

/-- Modelled from the spec: decoder for an integer field. -/
def decodeInt : Json → Option Int
  | .num n => some n
  | _ => none

/-- Modelled from the spec: decoder for one serialized Message. -/
def decodeMessage : Json → Option Message
  | .obj kvs =>
    match alistFind kvs "type" with
    | some tj =>
      match decodeString tj with
      | some t =>
        match alistFind kvs "file" with
        | some fj =>
          match decodeField fj with
          | some f =>
            match alistFind kvs "line" with
            | some lj =>
              match decodeField lj with
              | some l =>
                match alistFind kvs "desc" with
                | some dj =>
                  match decodeField dj with
                  | some d => some ⟨t, f, l, d⟩
                  | none => none
                | none => none
              | none => none
            | none => none
          | none => none
        | none => none
      | none => none
    | none => none
  | _ => none

/-- Modelled from the spec: decoder for the message array. -/
def decodeMessageList : List Json → Option (List Message)
  | [] => some []
  | x :: xs =>
    match decodeMessage x, decodeMessageList xs with
    | some m, some ms => some (m :: ms)
    | _, _ => none

/-- Modelled from the spec: decoder for one suite object (test name to
boolean). -/
def decodeSuiteEntries : List (String × Json) → Option (List (String × Bool))
  | [] => some []
  | (k, Json.bool b) :: rest =>
    match decodeSuiteEntries rest with
    | some r => some ((k, b) :: r)
    | none => none
  | _ => none

/-- Modelled from the spec: decoder for the `tests` object (suite name to
suite object). -/
def decodeTestsEntries : List (String × Json) → Option TestsMap
  | [] => some []
  | (k, Json.obj svs) :: rest =>
    match decodeSuiteEntries svs, decodeTestsEntries rest with
    | some s, some r => some ((k, s) :: r)
    | _, _ => none
  | _ => none

/-- Modelled from the spec: decoder for the message array node. -/
def decodeMessagesJ : Json → Option (List Message)
  | .arr xs => decodeMessageList xs
  | _ => none

/-- Modelled from the spec: decoder for the `tests` node. -/
def decodeTests : Json → Option TestsMap
  | .obj kvs => decodeTestsEntries kvs
  | _ => none

/-- Modelled from the spec: decoder for one serialized ReportPart. -/
def decodeReportPart : Json → Option PartContent
  | .obj kvs =>
    (alistFind kvs "returncode").bind (fun rcj =>
      (decodeInt rcj).bind (fun rc =>
        (alistFind kvs "messages").bind (fun msj =>
          (decodeMessagesJ msj).bind (fun msgs =>
            match alistFind kvs "tests" with
            | none => some ⟨rc, msgs, none⟩
            | some tj => (decodeTests tj).bind (fun t => some ⟨rc, msgs, some t⟩)))))
  | _ => none

/-- Modelled from the spec: decoder for the stage-keyed report object. -/
def decodeReportEntries : List (String × Json) → Option (List (String × PartContent))
  | [] => some []
  | (k, v) :: rest =>
    match decodeReportPart v, decodeReportEntries rest with
    | some pc, some r => some ((k, pc) :: r)
    | _, _ => none

/-- Modelled from the spec: decoder for a whole serialized Report. -/
def decodeReport : Json → Option (List (String × PartContent))
  | .obj kvs => decodeReportEntries kvs
  | _ => none

/- ===================== compiler.py : CompilerGccParser ===================== -/

/-- One entry of the class-level rule tables of `CompilerGccParser`:
message kind, capture-group indices for file, line and description
(`None` allowed), and the regular-expression text. -/
structure GccRule where
  type : String
  file : Option Nat
  line : Option Nat
  desc : Option Nat
  pattern : String
deriving DecidableEq

/-- Transcription of `CompilerGccParser.gcc_patterns` (14 rules, source
order). -/
def CompilerGccParser.gcc_patterns : List GccRule :=
  [⟨"ignore", none, none, none,
    "(.*?):(\\d+):(\\d+:)? .*\\(Each undeclared identifier is reported only once.*"⟩,
   ⟨"ignore", none, none, none,
    "(.*?):(\\d+):(\\d+:)? .*for each function it appears in.\\).*"⟩,
   ⟨"ignore", none, none, none,
    "(.*?):(\\d+):(\\d+:)? .*this will be reported only once per input file.*"⟩,
   ⟨"error", some 0, some 1, some 3,
    "(.*?):(\\d+):(\\d+:)? [Ee]rror: ([\x60\x27\"](.*)[\x27\"] undeclared .*)"⟩,
   ⟨"error", some 0, some 1, some 3,
    "(.*?):(\\d+):(\\d+:)? [Ee]rror: (conflicting types for .*[\x60\x27\"](.*)[\x27\"].*)"⟩,
   ⟨"error", some 0, some 1, some 3,
    "(.*?):(\\d+):(\\d+:)? (parse error before.*[\x60\x27\"](.*)[\x27\"].*)"⟩,
   ⟨"warning", some 0, some 1, some 3,
    "(.*?):(\\d+):(\\d+:)? [Ww]arning: ([\x60\x27\"](.*)[\x27\"] defined but not used.*)"⟩,
   ⟨"warning", some 0, some 1, some 3,
    "(.*?):(\\d+):(\\d+:)? [Ww]arning: (conflicting types for .*[\x60\x27\"](.*)[\x27\"].*)"⟩,
   ⟨"warning", some 0, some 1, some 4,
    "(.*?):(\\d+):(\\d+:)? ([Ww]arning:)?\\s*(the use of [\x60\x27\"](.*)[\x27\"] is dangerous, better use [\x60\x27\"](.*)[\x27\"].*)"⟩,
   ⟨"info", some 0, some 1, some 3,
    "(.*?):(\\d+):(\\d+:)?\\s*(.*((instantiated)|(required)) from .*)"⟩,
   ⟨"error", some 0, some 1, some 6,
    "(.*?):(\\d+):(\\d+:)?\\s*(([Ee]rror)|(ERROR)): (.*)"⟩,
   ⟨"warning", some 0, some 1, some 6,
    "(.*?):(\\d+):(\\d+:)?\\s*(([Ww]arning)|(WARNING)): (.*)"⟩,
   ⟨"info", some 0, some 1, some 8,
    "(.*?):(\\d+):(\\d+:)?\\s*(([Nn]ote)|(NOTE)|([Ii]nfo)|(INFO)): (.*)"⟩,
   ⟨"error", some 0, some 1, some 3,
    "(.*?):(\\d+):(\\d+:)? (.*)"⟩]

/-- Transcription of `CompilerGccParser.ld_patterns` (6 rules, source
order). -/
def CompilerGccParser.ld_patterns : List GccRule :=
  [⟨"ignore", some 0, none, some 2,
    "(.*?):?(\\(\\.\\w+\\+.*\\))?:\\s*(In function [\x60\x27\"](.*)[\x27\"]:)"⟩,
   ⟨"warning", some 0, some 1, some 4,
    "(.*?):(\\d+):(\\d+:)? ([Ww]arning:)?\\s*(the use of [\x60\x27\"](.*)[\x27\"] is dangerous, better use [\x60\x27\"](.*)[\x27\"].*)"⟩,
   ⟨"warning", some 0, none, some 1,
    "(.*?):?\\(\\.\\w+\\+.*\\): [Ww]arning:? (.*)"⟩,
   ⟨"error", some 0, none, some 1,
    "(.*?):?\\(\\.\\w+\\+.*\\): (.*)"⟩,
   ⟨"warning", none, none, some 2,
    "(.*[/\\\\])?ld(\\.exe)?: [Ww]arning:? (.*)"⟩,
   ⟨"error", none, none, some 2,
    "(.*[/\\\\])?ld(\\.exe)?: (.*)"⟩]

/-- Answer of the external regular-expression engine: for a pattern and a
line, `none` when `cpattern.match(l)` is `None`, otherwise the tuple
`match.groups()` (entries are `None` for non-participating groups). -/
abbrev MatchOracle := String → String → Option (List (Option String))

/-- Field extraction `groups[p[k]]` guarded by the `None` test on the
index: `_file = None if p['file'] is None else groups[p['file']]`. -/
def fieldOf (idx : Option Nat) (groups : List (Option String)) : Option String :=
  match idx with
  | none => none
  | some i => groups.getD i none

/-- Message built for one matching rule
(`Message(_type=..., _file=..., line=..., desc=...)`). -/
def mkMsg (p : GccRule) (groups : List (Option String)) : Message :=
  ⟨p.type, fieldOf p.file groups, fieldOf p.line groups, fieldOf p.desc groups⟩

/-- Body of the inner rule loop of `CompilerGccParser.parse`: on a match,
append one Message to the accumulated list. -/
def procRule (m : MatchOracle) (l : String) (acc : List Message) (p : GccRule) :
    List Message :=
  match m p.pattern l with
  | some groups => acc ++ [mkMsg p groups]
  | none => acc

/-- Shallow embedding of `CompilerGccParser.parse`: split the data on
newlines; for every line run all `gcc_patterns` then all `ld_patterns`,
appending one Message per matching rule. -/
def CompilerGccParser.parse (m : MatchOracle) (data : String) : List Message :=
  (data.splitOn "\n").foldl
    (fun acc l =>
      CompilerGccParser.ld_patterns.foldl (procRule m l)
        (CompilerGccParser.gcc_patterns.foldl (procRule m l) acc))
    []

/- ===================== unittest.py : CunitParser ===================== -/

/-- Content of a `CUNIT_RUN_TEST_RECORD` element: the optional
`CUNIT_RUN_TEST_FAILURE` child carries test name, file name, line number
and condition; the optional `CUNIT_RUN_TEST_SUCCESS` child carries the
test name. -/
structure CUnitTestRecord where
  failure : Option (String × String × String × String)
  success : Option String
deriving DecidableEq

/-- Content of the `CUNIT_RUN_SUITE_FAILURE` or `CUNIT_RUN_SUITE_SUCCESS`
element: the `SUITE_NAME` text and the test records found below it. -/
structure CUnitSuiteBody where
  name : String
  tests : List CUnitTestRecord
deriving DecidableEq

/-- One `CUNIT_RUN_SUITE` element with its optional failure and success
children. -/
structure CUnitSuite where
  failure : Option CUnitSuiteBody
  success : Option CUnitSuiteBody
deriving DecidableEq

/-- Parsed XML document: the list of
`CUNIT_RESULT_LISTING/CUNIT_RUN_SUITE` elements. -/
structure CUnitDoc where
  suites : List CUnitSuite
deriving DecidableEq

/-- Errors the unit-test parser can signal: the `ValueError` on empty
data, the XML `ParseError` of `fromstring` on malformed data, and the
`assert 0` on a record that is neither success nor failure. -/
inductive ParseErr where
  | noData
  | malformed
  | assertionFailed
deriving DecidableEq

/-- Shallow embedding of `CunitParser.add_test_result`:
`self.list_of_tests[suite_name][test_name] = success` on a
`defaultdict(dict)`. -/
def addTestResult (t : TestsMap) (suite test : String) (success : Bool) : TestsMap :=
  match alistFind t suite with
  | some inner => alistInsert t suite (alistInsert inner test success)
  | none => t ++ [(suite, [(test, success)])]

/-- Inner loop of `CunitParser.parse` over the test records of one suite:
a failure record emits an error Message and records `False`, a success
record records `True`, anything else hits `assert 0`. -/
def parseTestRecords (sName : String) (recs : List CUnitTestRecord)
    (acc : List Message × TestsMap) : Except ParseErr (List Message × TestsMap) :=
  match recs with
  | [] => .ok acc
  | t :: rest =>
    match t.failure with
    | some (tName, tFile, tLine, tCond) =>
      parseTestRecords sName rest
        (acc.1 ++ [⟨"error", some tFile, some tLine,
                    some (sName ++ " - " ++ tName ++ " - Condition: " ++ tCond)⟩],
         addTestResult acc.2 sName tName false)
    | none =>
      match t.success with
      | some tName => parseTestRecords sName rest (acc.1, addTestResult acc.2 sName tName true)
      | none => .error .assertionFailed

/-- Outer loop of `CunitParser.parse` over the suites: a suite is read
through its failure child if present, else its success child, else
`assert(0)`. -/
def parseSuites (ss : List CUnitSuite) (acc : List Message × TestsMap) :
    Except ParseErr (List Message × TestsMap) :=
  match ss with
  | [] => .ok acc
  | s :: rest =>
    match s.failure with
    | some body =>
      match parseTestRecords body.name body.tests acc with
      | .ok acc2 => parseSuites rest acc2
      | .error e => .error e
    | none =>
      match s.success with
      | some body =>
        match parseTestRecords body.name body.tests acc with
        | .ok acc2 => parseSuites rest acc2
        | .error e => .error e
      | none => .error .assertionFailed

/-- Shallow embedding of `CunitParser.parse`: `if not data: raise
ValueError(...)`, then `xml.etree.ElementTree.fromstring(data)` (the
external XML library is the oracle `xml`), then the suite traversal.
Returns the emitted messages together with the accumulated
`list_of_tests`. -/
def CunitParser.parse (xml : String → Option CUnitDoc) (data : String) :
    Except ParseErr (List Message × TestsMap) :=
  if data = "" then .error .noData
  else
    match xml data with
    | none => .error .malformed
    | some doc => parseSuites doc.suites ([], [])

/-- Shallow embedding of `CunitChecker.run` given the backend outcome
`(error_code, data)`: a truthy error code yields a ReportPart with empty
messages; otherwise the parser runs (and its error propagates — there is
no handler in the source). -/
def CunitChecker.run (errorCode : Int) (data : String)
    (xml : String → Option CUnitDoc) : Except ParseErr ReportPart :=
  if errorCode ≠ 0 then .ok ⟨"cunit", errorCode, [], none⟩
  else
    match CunitParser.parse xml data with
    | .error e => .error e
    | .ok (msgs, tests) => .ok ⟨"cunit", errorCode, msgs, some tests⟩

/- ===================== unittest.py : DockerRunner ===================== -/

/-- Calls the Docker backend makes against the container runtime, used to
record teardown behaviour. -/
inductive DkAction where
  | buildImage
  | createContainer
  | startContainer
  | waitContainer
  | stopContainer
  | removeContainer
  | removeImage
  | copyFile
deriving DecidableEq

/-- Outcome of `client.wait` on the started container: a `ReadTimeout` or
an exit with the given status. -/
inductive StartOutcome where
  | timeout
  | exited (code : Int)
deriving DecidableEq

/-- Shallow embedding of `DockerRunner.start_container`: create and start
the container, wait with `DOCKER_TIMEOUT`; on timeout or non-zero exit
status tear down and report failure (the boolean says whether a container
handle is returned). -/
def DockerRunner.start_container (outcome : StartOutcome) :
    (Int × Bool) × List DkAction :=
  match outcome with
  | .timeout =>
    ((-1, false),
     [.createContainer, .startContainer, .waitContainer,
      .stopContainer, .removeContainer, .removeImage])
  | .exited c =>
    if c ≠ 0 then
      ((c, false),
       [.createContainer, .startContainer, .waitContainer,
        .stopContainer, .removeContainer, .removeImage])
    else ((0, true), [.createContainer, .startContainer, .waitContainer])

/-- Value returned by `DockerRunner.extract_file_from_container`: the file
bytes on success, but a `ReportPart` object on the missing-file error
path (the source returns `ReportPart('cunit', -1, [])` there). -/
inductive ExtractResult where
  | bytes (data : String)
  | part (rp : ReportPart)
deriving DecidableEq

/-- Shallow embedding of `DockerRunner.extract_file_from_container`:
`fileContent` is the content of `/CUnitAutomated-Results.xml` in the
exited container, `none` when the copy call raises the missing-file
`APIError`; on that error path the runner tears town container and image
and returns a `ReportPart` instead of data. -/
def DockerRunner.extract_file_from_container (fileContent : Option String) :
    ExtractResult × List DkAction :=
  match fileContent with
  | none => (.part ⟨"cunit", -1, [], none⟩, [.copyFile, .stopContainer, .removeContainer, .removeImage])
  | some d => (.bytes d, [.copyFile])

/-- Shallow embedding of `DockerRunner.run`: build the image, start the
container; a truthy error code returns `(error_code, None)`; otherwise
extract the result file, call `stop_container` (again), and return
`(0, data)` — whatever object `data` is. -/
def DockerRunner.run (outcome : StartOutcome) (fileContent : Option String) :
    (Int × Option ExtractResult) × List DkAction :=
  let sc := DockerRunner.start_container outcome
  let ec := sc.1.1
  if ec ≠ 0 then ((ec, none), DkAction.buildImage :: sc.2)
  else
    let ex := DockerRunner.extract_file_from_container fileContent
    (((0 : Int), some ex.1),
     DkAction.buildImage :: sc.2 ++ ex.2 ++ [.stopContainer, .removeContainer, .removeImage])

/- ===================== concoct.py : Project ===================== -/

/-- UTF-8 encoding of one character, the external
`str.encode('utf-8')` per code point. -/
def charUtf8 (c : Char) : List Nat :=
  let n := c.toNat
  if n < 0x80 then [n]
  else if n < 0x800 then [0xC0 + n / 64, 0x80 + n % 64]
  else if n < 0x10000 then [0xE0 + n / 4096, 0x80 + (n / 64) % 64, 0x80 + n % 64]
  else [0xF0 + n / 262144, 0x80 + (n / 4096) % 64, 0x80 + (n / 64) % 64, 0x80 + n % 64]

/-- UTF-8 encoding of a string as a byte list. -/
def utf8Bytes (s : String) : List Nat := s.data.flatMap charUtf8

/-- Character of the standard base64 alphabet at a 6-bit index. -/
def b64char (n : Nat) : Char :=
  "ABCDEFGHIJKLMNOPQRSTUVWXYZabcdefghijklmnopqrstuvwxyz0123456789+/".data.getD n 'A'

/-- Standard base64 encoding with `=` padding, the external
`base64.b64encode`. -/
def b64encode : List Nat → List Char
  | [] => []
  | [a] => [b64char (a / 4), b64char (a % 4 * 16), '=', '=']
  | [a, b] => [b64char (a / 4), b64char (a % 4 * 16 + b / 16), b64char (b % 16 * 4), '=']
  | a :: b :: c :: rest =>
      b64char (a / 4) :: b64char (a % 4 * 16 + b / 16) :: b64char (b % 16 * 4 + c / 64) ::
        b64char (c % 64) :: b64encode rest

/-- ASCII lower-casing of one character, the effect of `str.lower()` on
base64 output. -/
def lowerChar (c : Char) : Char :=
  if 'A' ≤ c ∧ c ≤ 'Z' then Char.ofNat (c.toNat + 32) else c

/-- Derivation of `Project.target` from `Project.project_name`:
`base64.b64encode(name.encode('utf-8')).decode('utf-8').lower().replace('=', '')`. -/
def targetOf (project_name : String) : String :=
  String.mk (((b64encode (utf8Bytes project_name)).map lowerChar).filter (fun c => c ≠ '='))

/-- Attributes of `concoct.Project` after `__init__` (the `include`
attribute is spelled `include_dirs` because `include` is a Lean keyword;
`tempdir` is assigned later by the pipeline and omitted here). -/
structure Project where
  project_name : String
  file_list : List String
  libs : List String
  include_dirs : List String
  target : String
deriving DecidableEq

/-- Shallow embedding of `Project.__init__`: `fs` answers
`os.path.isfile`; the attributes are set, `target` is derived, then every
path of `file_list` is checked and the first missing one raises
`FileNotFoundError`.  The second component lists the external processes
launched by the constructor: the source body launches none. -/
def Project.init (fs : String → Bool) (target : String) (file_list : List String)
    (libs : List String) (includes : List String) : Except String Project × List String :=
  match file_list.find? (fun f => !(fs f)) with
  | some f => (.error ("Source file " ++ f ++ " not found!"), [])
  | none => (.ok ⟨target, file_list, libs, includes, targetOf target⟩, [])

/-- Image tag computed at the top of `DockerRunner.run`:
`img = 'autotest/' + project.target`. -/
def DockerRunner.img (project : Project) : String :=
  "autotest/" ++ project.target

/- ===================== concoct.py : Task and Solution ===================== -/

/-- Attributes of `concoct.Task` as loaded from `config.json` (named
`TaskCfg` because `Task` is already taken by the Lean core library). -/
structure TaskCfg where
  path : String
  name : String
  desc : String
  libs : List String
  src_dir : String
  files : List String
  files_main : List String
  files_test : List String
  files_student : List String
deriving DecidableEq

/-- Attributes of `concoct.Solution` (the `task` back-reference carries no
data used by the factories and is omitted). -/
structure Solution where
  solution_file_list : List String
deriving DecidableEq

/-- Shallow embedding of `Solution.__init__`: `if solution_file_list:`
keeps a truthy (non-empty) list and replaces `None` or `[]` by `[]`. -/
def Solution.init (solution_file_list : Option (List String)) : Solution :=
  match solution_file_list with
  | some l => if l.isEmpty then ⟨[]⟩ else ⟨l⟩
  | none => ⟨[]⟩

/-- Modelling of `os.path.join` with two relative components. -/
def join2 (a b : String) : String := a ++ "/" ++ b

/-- Modelling of `os.path.join` with three relative components. -/
def join3 (a b c : String) : String := a ++ "/" ++ b ++ "/" ++ c

/-- Shallow embedding of `Task.get_main_project`: `files` + `files_main`
+ (the solution files when a Solution object is passed — any object is
truthy, whatever its file list — else the `files_student` placeholders),
then `Project(self.name, file_list, self.libs, include_list)`. -/
def TaskCfg.get_main_project (fs : String → Bool) (t : TaskCfg) (solution : Option Solution) :
    Except String Project × List String :=
  let file_list :=
    t.files.map (join3 t.path t.src_dir) ++ t.files_main.map (join3 t.path t.src_dir)
    ++ (match solution with
        | some s => s.solution_file_list
        | none => t.files_student.map (join3 t.path t.src_dir))
  Project.init fs t.name file_list t.libs [join2 t.path t.src_dir]

/-- Shallow embedding of `Task.get_test_project`: as the main factory but
with `files_test`. -/
def TaskCfg.get_test_project (fs : String → Bool) (t : TaskCfg) (solution : Option Solution) :
    Except String Project × List String :=
  let file_list :=
    t.files.map (join3 t.path t.src_dir) ++ t.files_test.map (join3 t.path t.src_dir)
    ++ (match solution with
        | some s => s.solution_file_list
        | none => t.files_student.map (join3 t.path t.src_dir))
  Project.init fs t.name file_list t.libs [join2 t.path t.src_dir]

/- ===================== concoct.py : ConCoCt ===================== -/

/-- Answers of the external environment probes made by
`ConCoCt.check_env`: presence of the binaries, the return codes of the
`docker info` and `ld -lcunit` probes, and the docker-py version tuple. -/
structure Env where
  gcc : Bool
  cppcheck : Bool
  docker : Bool
  dockerInfoRc : Int
  ld : Bool
  ldCunitRc : Int
  major : Nat
  minor : Nat
deriving DecidableEq

/-- Shallow embedding of `ConCoCt.check_env`, probe order as in the
source; a missing binary raises `FileNotFoundError` with the message
shown, and the version test rejects exactly when
`version_info[0] < 1 or version_info[0] == 1 and version_info[1] < 2`. -/
def ConCoCt.check_env (e : Env) : Except String Unit :=
  if !e.gcc then .error "gcc not found!"
  else if !e.cppcheck then .error "cppcheck not found!"
  else if !e.docker then .error "docker not found!"
  else if e.dockerInfoRc ≠ 0 then
    .error "docker found but permission denied. Is user in group \"docker\"?"
  else if !e.ld then .error "ld not found!"
  else if e.ldCunitRc ≠ 0 then .error "cunit not found!"
  else if e.major < 1 ∨ (e.major = 1 ∧ e.minor < 2) then .error "docker-py version to old!"
  else .ok ()

/-- Answers of the three stage tools for one `check_project` run: the
return code and parsed messages of cppcheck and gcc, the backend runner
result `(error_code, data)` for the cunit stage, and the XML library
oracle used by the cunit parser. -/
structure StageOracle where
  cppRc : Int
  cppMsgs : List Message
  gccRc : Int
  gccMsgs : List Message
  backendRc : Int
  backendData : String
  xml : String → Option CUnitDoc

/-- Shallow embedding of `ConCoCt.check_project`.  The source runs
cppcheck, then tests `_r.returncode == 0` before gcc, then tests
`_r.returncode == 0` again before cunit; since `_r` still holds the
cppcheck part when gcc was skipped (and its code is then non-zero), the
two sequential tests are equivalent to this nesting.  The second
component lists the stages whose underlying tool was launched; a parse
error of the cunit stage propagates (first component `.error`). -/
def ConCoCt.check_project (o : StageOracle) : Except ParseErr Report × List String :=
  let rCpp : ReportPart := ⟨"cppcheck", o.cppRc, o.cppMsgs, none⟩
  if rCpp.returncode = 0 then
    let rGcc : ReportPart := ⟨"gcc", o.gccRc, o.gccMsgs, none⟩
    if rGcc.returncode = 0 then
      match CunitChecker.run o.backendRc o.backendData o.xml with
      | .error e => (.error e, ["cppcheck", "gcc", "cunit"])
      | .ok rCunit => (.ok ⟨[rCpp, rGcc, rCunit]⟩, ["cppcheck", "gcc", "cunit"])
    else (.ok ⟨[rCpp, rGcc]⟩, ["cppcheck", "gcc"])
  else (.ok ⟨[rCpp]⟩, ["cppcheck"])

/- ===================== report.py : Message object semantics ===================== -/

/-- Message as a Python runtime object: an identity (the CPython object
id) together with the attribute record.  `report.Message` defines neither
`__eq__` nor any write protection, so object semantics decide equality
and mutation. -/
structure PyMessageObj where
  addr : Nat
  fields : Message
deriving DecidableEq

/-- Equality test `m1 == m2` on Message objects: the class defines no
`__eq__`, so CPython falls back to identity comparison. -/
def messageEq (a b : PyMessageObj) : Bool := a.addr == b.addr

/-- Attribute assignment `m.type = v` on a Message object: nothing in the
class forbids it, the assignment succeeds and replaces the field. -/
def messageSetType (m : PyMessageObj) (v : String) : PyMessageObj :=
  { m with fields := { m.fields with type := v } }

/-- Decision of `Except.ok`-ness, used to state success of embedded
fallible operations. -/
def isOkE {ε α : Type} : Except ε α → Bool
  | .ok _ => true
  | .error _ => false

/- ===================== helper lemmas ===================== -/

/-- Unfolding of a successful `Project.init`: all attributes are the
constructor arguments, with `target` derived. -/
theorem projInit_ok_fields (fs : String → Bool) (name : String)
    (files libs incs : List String) (p : Project)
    (h : (Project.init fs name files libs incs).1 = .ok p) :
    p.project_name = name ∧ p.file_list = files ∧ p.libs = libs ∧
      p.include_dirs = incs ∧ p.target = targetOf name := by
  unfold Project.init at h
  cases hf : files.find? (fun f => !(fs f)) with
  | some f => rw [hf] at h; simp at h
  | none => rw [hf] at h; simp at h; subst h; simp

/-- Inner rule loop of the compiler parser as a `filterMap`. -/
theorem foldl_procRule (m : MatchOracle) (l : String) (ps : List GccRule)
    (acc : List Message) :
    ps.foldl (procRule m l) acc
      = acc ++ ps.filterMap (fun p => (m p.pattern l).map (mkMsg p)) := by
  induction ps generalizing acc with
  | nil => simp
  | cons p rest ih =>
    simp only [List.foldl_cons, List.filterMap_cons]
    cases h : m p.pattern l with
    | none => simp [procRule, h, ih]
    | some g => simp [procRule, h, ih]

/-- Line loop of the compiler parser as a `flatMap`. -/
theorem foldl_lines (m : MatchOracle) (ls : List String) (acc : List Message) :
    ls.foldl
        (fun acc l =>
          CompilerGccParser.ld_patterns.foldl (procRule m l)
            (CompilerGccParser.gcc_patterns.foldl (procRule m l) acc)) acc
      = acc ++ ls.flatMap (fun l =>
          (CompilerGccParser.gcc_patterns ++ CompilerGccParser.ld_patterns).filterMap
            (fun p => (m p.pattern l).map (mkMsg p))) := by
  induction ls generalizing acc with
  | nil => simp
  | cons l rest ih =>
    rw [List.foldl_cons, List.flatMap_cons, foldl_procRule, foldl_procRule, ih,
      List.filterMap_append]
    simp [List.append_assoc]

/-- Length of a `filterMap` equals the number of elements on which the
function succeeds. -/
theorem filterMap_length_eq_filter_isSome {α β : Type} (f : α → Option β) (xs : List α) :
    (xs.filterMap f).length = (xs.filter (fun x => (f x).isSome)).length := by
  induction xs with
  | nil => rfl
  | cons x rest ih =>
    cases h : f x with
    | none => simp [List.filterMap_cons, List.filter_cons, h, ih]
    | some y => simp [List.filterMap_cons, List.filter_cons, h, ih]

/- ===================== Claim C4 ===================== -/

/-- Claim C4: for every input line of compiler stderr, the compiler
parser tries every rule in order and emits exactly one Message per
matching rule, messages appearing in rule order with the gcc family
before the ld family; a matching rule whose file, line or desc capture
index is `None` makes the corresponding Message field empty (`None`). -/
theorem c4_compiler_parser_rule_semantics (m : MatchOracle) (data : String) :
    CompilerGccParser.parse m data
        = (data.splitOn "\n").flatMap (fun l =>
            (CompilerGccParser.gcc_patterns ++ CompilerGccParser.ld_patterns).filterMap
              (fun p => (m p.pattern l).map (mkMsg p)))
      ∧ (∀ l : String,
          ((CompilerGccParser.gcc_patterns ++ CompilerGccParser.ld_patterns).filterMap
              (fun p => (m p.pattern l).map (mkMsg p))).length
            = ((CompilerGccParser.gcc_patterns ++ CompilerGccParser.ld_patterns).filter
                (fun p => (m p.pattern l).isSome)).length)
      ∧ (∀ groups : List (Option String), fieldOf none groups = none)
      ∧ (∀ (p : GccRule) (groups : List (Option String)),
          mkMsg p groups
            = ⟨p.type, fieldOf p.file groups, fieldOf p.line groups, fieldOf p.desc groups⟩) := by
  refine ⟨?_, ?_, ?_, ?_⟩
  · unfold CompilerGccParser.parse
    rw [foldl_lines]
    simp
  · intro l
    rw [filterMap_length_eq_filter_isSome]
    congr 1
    apply List.filter_congr
    intro p _
    cases m p.pattern l <;> simp
  · intro groups; rfl
  · intro p groups; rfl

/- ===================== Claim C6 ===================== -/

/-- Claim C6: for every Project constructed with a project name, the
`target` attribute is the base64 encoding of the UTF-8 bytes of the name,
lower-cased, with the `=` padding removed, and the container image tag of
the Docker backend is exactly `autotest/` followed by that target. -/
theorem c6_target_derivation (fs : String → Bool) (name : String)
    (files libs incs : List String) (p : Project)
    (h : (Project.init fs name files libs incs).1 = .ok p) :
    p.target
        = String.mk (((b64encode (utf8Bytes name)).map lowerChar).filter (fun c => c ≠ '='))
      ∧ DockerRunner.img p = "autotest/" ++ p.target := by
  obtain ⟨-, -, -, -, ht⟩ := projInit_ok_fields fs name files libs incs p h
  exact ⟨ht, rfl⟩

/-- Concrete Project for the C6 witness: the sample task name
`greaterZero` of the repository. -/
def projGreaterZero : Project := ⟨"greaterZero", [], [], [], "z3jlyxrlclplcm8"⟩

/-- Witness for C6 at the concrete name `greaterZero`. -/
theorem c6_target_derivation_witness :
    (Project.init (fun _ => true) "greaterZero" [] [] []).1 = Except.ok projGreaterZero
      ∧ projGreaterZero.target
          = String.mk (((b64encode (utf8Bytes "greaterZero")).map lowerChar).filter
              (fun c => c ≠ '='))
      ∧ DockerRunner.img projGreaterZero = "autotest/" ++ projGreaterZero.target :=
  ⟨by decide,
   (c6_target_derivation (fun _ => true) "greaterZero" [] [] [] projGreaterZero (by decide)).1,
   (c6_target_derivation (fun _ => true) "greaterZero" [] [] [] projGreaterZero (by decide)).2⟩

/- ===================== Claim C7 ===================== -/

/-- Claim C7: for every file list containing at least one path that does
not name an existing file, Project construction fails with the
`FileNotFoundError` input-validation error naming a missing file, and the
failed construction launches no external process. -/
theorem c7_missing_file_fails (fs : String → Bool) (name : String)
    (files libs incs : List String) (h : ∃ f ∈ files, fs f = false) :
    (∃ g ∈ files, fs g = false ∧
        (Project.init fs name files libs incs).1
          = .error ("Source file " ++ g ++ " not found!"))
      ∧ (Project.init fs name files libs incs).2 = [] := by
  have hsome : (files.find? (fun f => !(fs f))).isSome := by
    rw [List.find?_isSome]
    obtain ⟨f, hf, hfs⟩ := h
    exact ⟨f, hf, by simp [hfs]⟩
  obtain ⟨g, hg⟩ := Option.isSome_iff_exists.mp hsome
  have hmem := List.mem_of_find?_eq_some hg
  have hgf : fs g = false := by
    have := List.find?_some hg
    simpa using this
  refine ⟨⟨g, hmem, hgf, ?_⟩, ?_⟩
  · unfold Project.init
    rw [hg]
  · unfold Project.init
    rw [hg]

/-- Witness for C7: a one-element file list whose file does not exist. -/
theorem c7_missing_file_fails_witness :
    (∃ g ∈ ["missing.c"], (fun _ : String => false) g = false ∧
        (Project.init (fun _ => false) "t" ["missing.c"] [] []).1
          = .error ("Source file " ++ g ++ " not found!"))
      ∧ (Project.init (fun _ => false) "t" ["missing.c"] [] []).2 = [] :=
  c7_missing_file_fails (fun _ => false) "t" ["missing.c"] [] []
    ⟨"missing.c", by decide, rfl⟩

/- ===================== Claim C10 ===================== -/

/-- Claim C10: for every Task and every Solution whose file list is
empty, the Projects produced by `get_test_project` and `get_main_project`
contain neither solution files nor the `files_student` placeholders; the
placeholders are included only when no Solution object is passed at all,
because the branch tests the truthiness of the Solution object. -/
theorem c10_solution_truthiness (fs : String → Bool) (t : TaskCfg) (s : Solution)
    (hs : s.solution_file_list = []) :
    (∀ p : Project, (TaskCfg.get_test_project fs t (some s)).1 = .ok p →
        p.file_list
          = t.files.map (join3 t.path t.src_dir) ++ t.files_test.map (join3 t.path t.src_dir))
      ∧ (∀ p : Project, (TaskCfg.get_main_project fs t (some s)).1 = .ok p →
          p.file_list
            = t.files.map (join3 t.path t.src_dir) ++ t.files_main.map (join3 t.path t.src_dir))
      ∧ (∀ p : Project, (TaskCfg.get_test_project fs t none).1 = .ok p →
          p.file_list
            = t.files.map (join3 t.path t.src_dir) ++ t.files_test.map (join3 t.path t.src_dir)
              ++ t.files_student.map (join3 t.path t.src_dir)) := by
  refine ⟨?_, ?_, ?_⟩
  · intro p hp
    have hp2 : (Project.init fs t.name
        (t.files.map (join3 t.path t.src_dir) ++ t.files_test.map (join3 t.path t.src_dir)
          ++ s.solution_file_list) t.libs [join2 t.path t.src_dir]).1 = .ok p := hp
    rw [hs] at hp2
    have := (projInit_ok_fields _ _ _ _ _ _ hp2).2.1
    simpa using this
  · intro p hp
    have hp2 : (Project.init fs t.name
        (t.files.map (join3 t.path t.src_dir) ++ t.files_main.map (join3 t.path t.src_dir)
          ++ s.solution_file_list) t.libs [join2 t.path t.src_dir]).1 = .ok p := hp
    rw [hs] at hp2
    have := (projInit_ok_fields _ _ _ _ _ _ hp2).2.1
    simpa using this
  · intro p hp
    have hp2 : (Project.init fs t.name
        (t.files.map (join3 t.path t.src_dir) ++ t.files_test.map (join3 t.path t.src_dir)
          ++ t.files_student.map (join3 t.path t.src_dir)) t.libs [join2 t.path t.src_dir]).1
        = .ok p := hp
    have := (projInit_ok_fields _ _ _ _ _ _ hp2).2.1
    simpa [List.append_assoc] using this

/-- Concrete Task for the C10 witness. -/
def tcW : TaskCfg := ⟨"p", "n", "d", [], "s", ["a.c"], ["m.c"], ["t.c"], ["st.c"]⟩

/-- Witness for C10: with an empty-file-list Solution the test project of
`tcW` holds exactly the common and test files. -/
theorem c10_solution_truthiness_witness :
    (TaskCfg.get_test_project (fun _ => true) tcW (some ⟨[]⟩)).1
        = Except.ok ⟨"n", ["p/s/a.c", "p/s/t.c"], [], ["p/s"], targetOf "n"⟩
      ∧ (["p/s/a.c", "p/s/t.c"] : List String)
          = tcW.files.map (join3 tcW.path tcW.src_dir)
            ++ tcW.files_test.map (join3 tcW.path tcW.src_dir) := by
  refine ⟨by decide, ?_⟩
  have := (c10_solution_truthiness (fun _ => true) tcW ⟨[]⟩ rfl).1
    ⟨"n", ["p/s/a.c", "p/s/t.c"], [], ["p/s"], targetOf "n"⟩ (by decide)
  simpa using this

/- ===================== Claim C1 ===================== -/

/-- Helper: every ReportPart produced by a successful `CunitChecker.run`
carries the stage name `cunit` (`self.report_name`). -/
theorem cunit_run_source (ec : Int) (data : String) (xml : String → Option CUnitDoc)
    (rp : ReportPart) (h : CunitChecker.run ec data xml = .ok rp) : rp.source = "cunit" := by
  unfold CunitChecker.run at h
  split at h
  · cases h; rfl
  · split at h
    · exact Except.noConfusion h
    · cases h; rfl

/-- Claim C1: the sequence of ReportParts returned by `check_project` is
exactly `[cppcheck, gcc, cunit]` when all three stages run and a strict
prefix of it otherwise, and whenever a stage returns a non-zero code no
later stage's underlying tool is launched (second component of
`check_project`: the list of stages whose tool ran). -/
theorem c1_pipeline_stage_order (o : StageOracle) (r : Report)
    (h : (ConCoCt.check_project o).1 = .ok r) :
    r.parts.map ReportPart.source = (ConCoCt.check_project o).2
      ∧ ((ConCoCt.check_project o).2 = ["cppcheck"]
          ∨ (ConCoCt.check_project o).2 = ["cppcheck", "gcc"]
          ∨ (ConCoCt.check_project o).2 = ["cppcheck", "gcc", "cunit"])
      ∧ (o.cppRc ≠ 0 → (ConCoCt.check_project o).2 = ["cppcheck"])
      ∧ (o.cppRc = 0 → o.gccRc ≠ 0 → (ConCoCt.check_project o).2 = ["cppcheck", "gcc"]) := by
  by_cases h1 : o.cppRc = 0
  · by_cases h2 : o.gccRc = 0
    · cases hcr : CunitChecker.run o.backendRc o.backendData o.xml with
      | error e =>
        have e1 : ConCoCt.check_project o = (.error e, ["cppcheck", "gcc", "cunit"]) := by
          simp [ConCoCt.check_project, h1, h2, hcr]
        rw [e1] at h
        exact absurd h (by simp)
      | ok rc =>
        have hsrc : rc.source = "cunit" := cunit_run_source _ _ _ _ hcr
        have e1 : ConCoCt.check_project o
            = (.ok ⟨[⟨"cppcheck", o.cppRc, o.cppMsgs, none⟩,
                     ⟨"gcc", o.gccRc, o.gccMsgs, none⟩, rc]⟩,
               ["cppcheck", "gcc", "cunit"]) := by
          simp [ConCoCt.check_project, h1, h2, hcr]
        rw [e1] at h
        have hr := Except.ok.inj h
        subst hr
        rw [e1]
        exact ⟨by simp [hsrc], Or.inr (Or.inr rfl),
               fun hc => absurd h1 hc, fun _ hg => absurd h2 hg⟩
    · have e1 : ConCoCt.check_project o
          = (.ok ⟨[⟨"cppcheck", o.cppRc, o.cppMsgs, none⟩,
                   ⟨"gcc", o.gccRc, o.gccMsgs, none⟩]⟩, ["cppcheck", "gcc"]) := by
        simp [ConCoCt.check_project, h1, h2]
      rw [e1] at h
      have hr := Except.ok.inj h
      subst hr
      rw [e1]
      exact ⟨by simp, Or.inr (Or.inl rfl), fun hc => absurd h1 hc, fun _ _ => rfl⟩
  · have e1 : ConCoCt.check_project o
        = (.ok ⟨[⟨"cppcheck", o.cppRc, o.cppMsgs, none⟩]⟩, ["cppcheck"]) := by
      simp [ConCoCt.check_project, h1]
    rw [e1] at h
    have hr := Except.ok.inj h
    subst hr
    rw [e1]
    exact ⟨by simp, Or.inl rfl, fun _ => rfl, fun hc => absurd hc h1⟩

/-- Concrete CUnit document for the C1 witness: one successful suite with
one successful test. -/
def cunitDocW : CUnitDoc := ⟨[⟨none, some ⟨"suite1", [⟨none, some "test1"⟩]⟩⟩]⟩

/-- Concrete stage oracle for the C1 witness: all three stages succeed. -/
def oW : StageOracle := ⟨0, [], 0, [], 0, "xml", fun _ => some cunitDocW⟩

/-- Report produced on the C1 witness oracle. -/
def rW : Report :=
  ⟨[⟨"cppcheck", 0, [], none⟩, ⟨"gcc", 0, [], none⟩,
    ⟨"cunit", 0, [], some [("suite1", [("test1", true)])]⟩]⟩

/-- Witness for C1: on a run where all three stages succeed, the report
holds exactly the parts `[cppcheck, gcc, cunit]` in order. -/
theorem c1_pipeline_stage_order_witness :
    (ConCoCt.check_project oW).1 = Except.ok rW
      ∧ rW.parts.map ReportPart.source = (ConCoCt.check_project oW).2
      ∧ (ConCoCt.check_project oW).2 = ["cppcheck", "gcc", "cunit"] :=
  ⟨by decide, (c1_pipeline_stage_order oW rW (by decide)).1, by decide⟩

/- ===================== Claim C3 ===================== -/

/-- Concrete stage oracle on which C3 as stated fails: the backend
returns exit code 0 together with empty artifact data. -/
def oEmpty : StageOracle := ⟨0, [], 0, [], 0, "", fun _ => none⟩

/-- Counterexample to C3 as stated: with backend exit code 0 and empty
data the pipeline does not return a Report at all (so no ReportPart with
an empty message list is surfaced); the parser's error propagates out of
`check_project`. -/
theorem c3_empty_data_counterexample :
    (ConCoCt.check_project oEmpty).1 = Except.error ParseErr.noData
      ∧ isOkE (ConCoCt.check_project oEmpty).1 = false := by
  exact ⟨by decide, by decide⟩

/-- Claim C3 as amended: when the isolation backend returns exit code 0
together with empty artifact data, the unit-test parser signals its
no-data error, and this error propagates out of `check_project`
uncaught — the pipeline returns no Report for such a run (only a
non-zero backend exit code is surfaced as a ReportPart with an empty
message list). -/
theorem c3_empty_data_propagates (o : StageOracle) (h1 : o.cppRc = 0) (h2 : o.gccRc = 0)
    (h3 : o.backendRc = 0) (h4 : o.backendData = "") :
    (ConCoCt.check_project o).1 = Except.error ParseErr.noData
      ∧ (∀ xml : String → Option CUnitDoc,
          CunitParser.parse xml "" = Except.error ParseErr.noData)
      ∧ (∀ (ec : Int) (data : String) (xml : String → Option CUnitDoc),
          ec ≠ 0 → CunitChecker.run ec data xml = .ok ⟨"cunit", ec, [], none⟩) := by
  refine ⟨?_, fun xml => rfl, fun ec data xml hec => by simp [CunitChecker.run, hec]⟩
  have hrun : CunitChecker.run o.backendRc o.backendData o.xml = .error ParseErr.noData := by
    rw [h3, h4]
    rfl
  simp [ConCoCt.check_project, h1, h2, hrun]

/-- Witness for the amended C3 at the concrete empty-data oracle. -/
theorem c3_empty_data_propagates_witness :
    (ConCoCt.check_project oEmpty).1 = Except.error ParseErr.noData :=
  (c3_empty_data_propagates oEmpty rfl rfl rfl rfl).1

/- ===================== Claim C2 ===================== -/

/-- Claim C2 (failing on the code): when `/CUnitAutomated-Results.xml` is
absent from the exited container, `DockerRunner.run` does not return
`(-1, None)` — `extract_file_from_container` tears down and returns a
`ReportPart` object, which `run` passes on as `(0, ReportPart)` after a
second teardown (so `stop_container` is called twice); only on the
file-present path does exit code 0 come with the raw artifact bytes. -/
theorem c2_missing_artifact_bug :
    (DockerRunner.run (StartOutcome.exited 0) none).1
        = ((0 : Int), some (ExtractResult.part ⟨"cunit", -1, [], none⟩))
      ∧ (DockerRunner.run (StartOutcome.exited 0) none).1 ≠ ((-1 : Int), none)
      ∧ (DockerRunner.run (StartOutcome.exited 0) none).2.count DkAction.stopContainer = 2
      ∧ (DockerRunner.run (StartOutcome.exited 0) (some "<xml/>")).1
          = ((0 : Int), some (ExtractResult.bytes "<xml/>")) := by
  exact ⟨by decide, by decide, by decide, by decide⟩

/- ===================== Claim C8 ===================== -/

/-- Concrete environment on which C8 as stated fails: a docker-py
version 2.0 is accepted by the code although its minor is below 2. -/
def envV20 : Env := ⟨true, true, true, 0, true, 0, 2, 0⟩

/-- Counterexample to C8 as stated: version 2.0 is accepted by
`check_env`, but the claimed acceptance condition `major ≥ 1 and
minor ≥ 2` rejects it. -/
theorem c8_version_counterexample :
    ConCoCt.check_env envV20 = Except.ok ()
      ∧ ¬(1 ≤ envV20.major ∧ 2 ≤ envV20.minor) := by
  exact ⟨by decide, by decide⟩

/-- Claim C8 as amended: the version is accepted exactly when
`major > 1`, or `major = 1` and `minor ≥ 2` (the code rejects iff
`major < 1 or (major == 1 and minor < 2)`); construction succeeds iff
every probe passes, and the first failing prerequisite in probe order is
named by the raised error. -/
theorem c8_env_characterization (e : Env) :
    (isOkE (ConCoCt.check_env e) = true
        ↔ (e.gcc = true ∧ e.cppcheck = true ∧ e.docker = true ∧ e.dockerInfoRc = 0
            ∧ e.ld = true ∧ e.ldCunitRc = 0
            ∧ (1 < e.major ∨ (e.major = 1 ∧ 2 ≤ e.minor))))
      ∧ (e.gcc = false → ConCoCt.check_env e = .error "gcc not found!")
      ∧ (e.gcc = true → e.cppcheck = false →
          ConCoCt.check_env e = .error "cppcheck not found!")
      ∧ (e.gcc = true → e.cppcheck = true → e.docker = false →
          ConCoCt.check_env e = .error "docker not found!")
      ∧ (e.gcc = true → e.cppcheck = true → e.docker = true → e.dockerInfoRc ≠ 0 →
          ConCoCt.check_env e
            = .error "docker found but permission denied. Is user in group \"docker\"?")
      ∧ (e.gcc = true → e.cppcheck = true → e.docker = true → e.dockerInfoRc = 0 →
          e.ld = false → ConCoCt.check_env e = .error "ld not found!")
      ∧ (e.gcc = true → e.cppcheck = true → e.docker = true → e.dockerInfoRc = 0 →
          e.ld = true → e.ldCunitRc ≠ 0 → ConCoCt.check_env e = .error "cunit not found!")
      ∧ (e.gcc = true → e.cppcheck = true → e.docker = true → e.dockerInfoRc = 0 →
          e.ld = true → e.ldCunitRc = 0 → (e.major < 1 ∨ (e.major = 1 ∧ e.minor < 2)) →
          ConCoCt.check_env e = .error "docker-py version to old!") := by
  refine ⟨?_, ?_, ?_, ?_, ?_, ?_, ?_, ?_⟩
  · unfold ConCoCt.check_env isOkE
    split_ifs with hg hc hd hdi hl hlc hv
    · simp_all
    · simp_all
    · simp_all
    · simp_all
    · simp_all
    · simp_all
    · simp_all; omega
    · simp_all; omega
  · intro hg; simp [ConCoCt.check_env, hg]
  · intro hg hc; simp [ConCoCt.check_env, hg, hc]
  · intro hg hc hd; simp [ConCoCt.check_env, hg, hc, hd]
  · intro hg hc hd hdi; simp [ConCoCt.check_env, hg, hc, hd, hdi]
  · intro hg hc hd hdi hl; simp [ConCoCt.check_env, hg, hc, hd, hdi, hl]
  · intro hg hc hd hdi hl hlc; simp [ConCoCt.check_env, hg, hc, hd, hdi, hl, hlc]
  · intro hg hc hd hdi hl hlc hv
    simp [ConCoCt.check_env, hg, hc, hd, hdi, hl, hlc, hv]
    omega

/-- Concrete environment without a gcc binary for the C8 witness. -/
def envNoGcc : Env := ⟨false, true, true, 0, true, 0, 1, 2⟩

/-- Concrete fully satisfied environment (docker-py 1.2) for the C8
witness. -/
def envOk12 : Env := ⟨true, true, true, 0, true, 0, 1, 2⟩

/-- Witness for the amended C8: a missing gcc is named by the error, and
a fully satisfied environment with docker-py version 1.2 is accepted. -/
theorem c8_env_characterization_witness :
    ConCoCt.check_env envNoGcc = Except.error "gcc not found!"
      ∧ isOkE (ConCoCt.check_env envOk12) = true :=
  ⟨(c8_env_characterization envNoGcc).2.1 rfl,
   (c8_env_characterization envOk12).1.mpr (by decide)⟩

/- ===================== Claim C9 ===================== -/

/-- Message record shared by the two distinct C9 objects. -/
def msgF : Message := ⟨"error", some "a.c", some "1", some "boom"⟩

/-- First Message object of the C9 counterexample (identity 0). -/
def pyM0 : PyMessageObj := ⟨0, msgF⟩

/-- Second Message object of the C9 counterexample (identity 1, same
fields). -/
def pyM1 : PyMessageObj := ⟨1, msgF⟩

/-- Counterexample to C9 as stated: two Message objects with all four
fields matching compare unequal (the class inherits identity equality),
and an attribute assignment after construction succeeds and changes the
field (no immutability is enforced). -/
theorem c9_field_equality_counterexample :
    pyM0.fields = pyM1.fields
      ∧ messageEq pyM0 pyM1 = false
      ∧ (messageSetType pyM0 "warning").fields.type = "warning"
      ∧ pyM0.fields.type = "error" := by
  exact ⟨by decide, by decide, by decide, by decide⟩

/-- Claim C9 as amended: `Message` defines no `__eq__`, so two Message
objects are equal iff they are the same object (identity), not iff their
fields match; and the fields are plain mutable attributes — assignment
after construction succeeds, replaces the assigned field and keeps the
others. -/
theorem c9_identity_equality (a b : PyMessageObj) (v : String) :
    (messageEq a b = true ↔ a.addr = b.addr)
      ∧ (messageSetType a v).fields.type = v
      ∧ (messageSetType a v).fields.file = a.fields.file
      ∧ (messageSetType a v).fields.line = a.fields.line
      ∧ (messageSetType a v).fields.desc = a.fields.desc := by
  refine ⟨?_, rfl, rfl, rfl, rfl⟩
  simp [messageEq]

/- ===================== Claim C5 ===================== -/

/-- Roundtrip of one Message attribute value through the wire form. -/
theorem decodeField_encodeField (f : Option String) : decodeField (encodeField f) = some f := by
  cases f <;> rfl

/-- Roundtrip of one Message through the wire form. -/
theorem decodeMessage_encodeMessage (m : Message) : decodeMessage (encodeMessage m) = some m := by
  obtain ⟨t, f, l, d⟩ := m
  cases f <;> cases l <;> cases d <;> rfl

/-- Roundtrip of the message list through the wire form. -/
theorem decodeMessageList_map (ms : List Message) :
    decodeMessageList (ms.map encodeMessage) = some ms := by
  induction ms with
  | nil => rfl
  | cons m rest ih => simp [decodeMessageList, decodeMessage_encodeMessage, ih]

/-- Roundtrip of one suite result dictionary through the wire form. -/
theorem decodeSuiteEntries_map (l : List (String × Bool)) :
    decodeSuiteEntries (l.map (fun tb => (tb.1, Json.bool tb.2))) = some l := by
  induction l with
  | nil => rfl
  | cons x rest ih =>
    obtain ⟨k, b⟩ := x
    simp [decodeSuiteEntries, ih]

/-- Roundtrip of the whole tests dictionary through the wire form. -/
theorem decodeTestsEntries_map (t : TestsMap) :
    decodeTestsEntries
        (t.map (fun st => (st.1, Json.obj (st.2.map (fun tb => (tb.1, Json.bool tb.2))))))
      = some t := by
  induction t with
  | nil => rfl
  | cons x rest ih =>
    obtain ⟨k, l⟩ := x
    simp [decodeTestsEntries, decodeSuiteEntries_map, ih]

/-- Roundtrip of the tests node through the wire form. -/
theorem decodeTests_encodeTests (t : TestsMap) : decodeTests (encodeTests t) = some t := by
  simp [encodeTests, decodeTests, decodeTestsEntries_map]

/-- Roundtrip of one ReportPart through the wire form, provided its tests
attribute is not the (serialization-dropped) present-but-empty dict. -/
theorem decodeReportPart_encodeReportPart (p : ReportPart) (h : p.tests ≠ some []) :
    decodeReportPart (encodeReportPart p) = some ⟨p.returncode, p.messages, p.tests⟩ := by
  obtain ⟨src, rc, msgs, tests⟩ := p
  cases tests with
  | none =>
    have e1 : encodeReportPart ⟨src, rc, msgs, none⟩
        = Json.obj [("returncode", Json.num rc),
                    ("messages", Json.arr (msgs.map encodeMessage))] := by
      simp [encodeReportPart, testsTruthy]
    rw [e1]
    simp [decodeReportPart, alistFind, decodeInt, decodeMessagesJ, decodeMessageList_map]
  | some t =>
    cases t with
    | nil => simp at h
    | cons x xs =>
      have e1 : encodeReportPart ⟨src, rc, msgs, some (x :: xs)⟩
          = Json.obj [("returncode", Json.num rc),
                      ("messages", Json.arr (msgs.map encodeMessage)),
                      ("tests", encodeTests (x :: xs))] := by
        simp [encodeReportPart, testsTruthy]
      rw [e1]
      simp [decodeReportPart, alistFind, decodeInt, decodeMessagesJ, decodeMessageList_map,
        decodeTests_encodeTests]

/-- Python dict assignment with a key not yet present appends the pair. -/
theorem alistInsert_fresh {β : Type} (kvs : List (String × β)) (k : String) (v : β)
    (h : ∀ kv ∈ kvs, kv.1 ≠ k) : alistInsert kvs k v = kvs ++ [(k, v)] := by
  induction kvs with
  | nil => rfl
  | cons kv rest ih =>
    obtain ⟨k0, v0⟩ := kv
    have hk : k0 ≠ k := h (k0, v0) (List.mem_cons_self _ _)
    simp [alistInsert, hk, ih (fun x hx => h x (List.mem_cons_of_mem _ hx))]

/-- With pairwise-distinct stage names the encoder's dict loop appends
one entry per part, in part order. -/
theorem encodeReport_entries (parts : List ReportPart) (acc : List (String × Json))
    (hnd : (parts.map ReportPart.source).Nodup)
    (hacc : ∀ p ∈ parts, ∀ kv ∈ acc, kv.1 ≠ p.source) :
    parts.foldl (fun acc p => alistInsert acc p.source (encodeReportPart p)) acc
      = acc ++ parts.map (fun p => (p.source, encodeReportPart p)) := by
  induction parts generalizing acc with
  | nil => simp
  | cons p rest ih =>
    have hnd2 : (rest.map ReportPart.source).Nodup :=
      (List.nodup_cons.mp (by simpa using hnd)).2
    have hhead : p.source ∉ rest.map ReportPart.source :=
      (List.nodup_cons.mp (by simpa using hnd)).1
    have hacc2 : ∀ q ∈ rest, ∀ kv ∈ acc ++ [(p.source, encodeReportPart p)],
        kv.1 ≠ q.source := by
      intro q hq kv hkv
      rcases List.mem_append.mp hkv with hin | hone
      · exact hacc q (List.mem_cons_of_mem _ hq) kv hin
      · have hkv2 : kv = (p.source, encodeReportPart p) := by simpa using hone
        subst hkv2
        intro hEq
        have hEq2 : p.source = q.source := hEq
        exact hhead (hEq2 ▸ List.mem_map_of_mem ReportPart.source hq)
    rw [List.foldl_cons,
      alistInsert_fresh acc p.source (encodeReportPart p)
        (fun kv hkv => hacc p (List.mem_cons_self _ _) kv hkv),
      ih (acc ++ [(p.source, encodeReportPart p)]) hnd2 hacc2]
    simp

/-- Decoding of the entry list produced by the encoder, part by part. -/
theorem decodeReportEntries_map (parts : List ReportPart)
    (h : ∀ p ∈ parts, p.tests ≠ some []) :
    decodeReportEntries (parts.map (fun p => (p.source, encodeReportPart p)))
      = some (parts.map (fun p =>
          (p.source, (⟨p.returncode, p.messages, p.tests⟩ : PartContent)))) := by
  induction parts with
  | nil => rfl
  | cons p rest ih =>
    simp [decodeReportEntries,
      decodeReportPart_encodeReportPart p (h p (List.mem_cons_self _ _)),
      ih (fun q hq => h q (List.mem_cons_of_mem _ hq))]

/-- Claim C5 as amended: for every Report whose parts carry pairwise
distinct stage names and whose tests attributes are absent or non-empty,
parsing the JSON serialization yields exactly the logical content: the
stage names, per-stage return codes, the ordered messages with all four
fields, and the test map when present. -/
theorem c5_json_roundtrip (r : Report)
    (hnd : (r.parts.map ReportPart.source).Nodup)
    (htests : ∀ p ∈ r.parts, p.tests ≠ some []) :
    decodeReport (encodeReport r) = some (logicalOf r) := by
  unfold encodeReport
  rw [encodeReport_entries r.parts [] hnd (by simp)]
  simp only [List.nil_append]
  simp [decodeReport, decodeReportEntries_map r.parts htests, logicalOf]

/-- Report with two parts of the same stage name, on which the claim as
stated fails. -/
def rDup : Report := ⟨[⟨"gcc", 0, [], none⟩, ⟨"gcc", 1, [], none⟩]⟩

/-- Report with a present-but-empty tests dict, on which the claim as
stated also fails. -/
def rEmptyTests : Report := ⟨[⟨"cunit", 0, [], some []⟩]⟩

/-- Counterexample to C5 as stated: the stage-name-keyed JSON object
keeps only the last part for a repeated stage name (the `gcc` part with
return code 0 is lost), and a present-but-empty tests dict is dropped by
the truthiness test, so for these Reports the parsed serialization does
not reproduce the logical content. -/
theorem c5_json_roundtrip_counterexample :
    decodeReport (encodeReport rDup) ≠ some (logicalOf rDup)
      ∧ decodeReport (encodeReport rEmptyTests) ≠ some (logicalOf rEmptyTests) := by
  exact ⟨by decide, by decide⟩

/-- Report with the three distinct stages for the C5 witness. -/
def rGood : Report :=
  ⟨[⟨"cppcheck", 0, [⟨"error", some "a.c", some "1", some "x"⟩], none⟩,
    ⟨"gcc", 0, [⟨"warning", none, none, some "w"⟩], none⟩,
    ⟨"cunit", 0, [], some [("s", [("t", true)])]⟩]⟩

/-- Witness for the amended C5 on a three-stage report with distinct
stage names. -/
theorem c5_json_roundtrip_witness :
    decodeReport (encodeReport rGood) = some (logicalOf rGood) :=
  c5_json_roundtrip rGood (by decide) (by decide)
